import Mathlib

/-!
Verification of the personal-shopper backend against its specification.

Shallow embedding of the relevant parts of the repository
(FastAPI + SQLAlchemy + pydantic backend) and proofs about the embedded
operations.  Data rows are Lean structures mirroring the SQLAlchemy models
(`app/models/*.py`), handlers are pure functions over an explicit database
state, and Python exceptions surface as an explicit outcome type.

Modelling conventions:
* Python ints are `Int`; Python floats holding catalog prices are `PyFloat`
  (all arithmetic performed by the handlers on these values is exact).
* A handler returns `Outcome α × DB`: the committed database state is the
  second component.  `HTTPException` and uncaught Python exceptions both
  roll the transaction back (the session is closed without commit by
  `get_db`), so every error branch returns the input state unchanged.
* SQLAlchemy's declarative constructor raises `TypeError` when a keyword
  is not an attribute of the mapped class; pydantic raises
  `ValidationError` when a required field is missing from the constructor
  keywords.  Both checks are embedded via explicit attribute-name lists
  copied from the model/schema sources, so that constructions such as
  `OrderItem(price_at_time=...)` fail exactly as they do in Python.
-/

/-- Result of one HTTP handler call: success payload, an `HTTPException`
with status code and detail, or an uncaught Python exception (surfaced by
FastAPI as a 500). -/
inductive Outcome (α : Type) where
  | ok (value : α) : Outcome α
  | httpError (statusCode : Int) (detail : String) : Outcome α
  | raised (exc : String) : Outcome α
deriving DecidableEq

/-- Exact stand-in for the Python floats that hold money amounts: an
unnormalized fraction.  The handlers only ever add, multiply and compare
these values (never divide), and on the magnitudes involved Python float
arithmetic is exact, so exact fraction arithmetic is a faithful model.
Denominators are positive by construction: every literal has denominator
1 and addition/multiplication multiply denominators. -/
structure PyFloat where
  num : Int
  den : Int
deriving DecidableEq

instance : OfNat PyFloat n := ⟨⟨n, 1⟩⟩

instance : IntCast PyFloat := ⟨fun i => ⟨i, 1⟩⟩

instance : Add PyFloat :=
  ⟨fun a b => ⟨a.num * b.den + b.num * a.den, a.den * b.den⟩⟩

instance : Mul PyFloat :=
  ⟨fun a b => ⟨a.num * b.num, a.den * b.den⟩⟩

instance : LE PyFloat := ⟨fun a b => a.num * b.den ≤ b.num * a.den⟩

instance : LT PyFloat := ⟨fun a b => a.num * b.den < b.num * a.den⟩

instance (a b : PyFloat) : Decidable (a ≤ b) := Int.decLe _ _

instance (a b : PyFloat) : Decidable (a < b) := Int.decLt _ _

/-- `app/models/user.py` `User` row: id, email, username, hashed_password,
full_name, is_active, is_admin (timestamps omitted: no claim mentions
them). -/
structure UserRec where
  id : Int
  email : String
  username : String
  hashed_password : String
  full_name : Option String
  is_active : Bool
  is_admin : Bool
deriving DecidableEq

/-- `app/models/category.py` `Category` row: id, name, description.
The model defines no is_active column. -/
structure CategoryRec where
  id : Int
  name : String
  description : Option String
deriving DecidableEq

/-- `app/models/product.py` `Product` row. -/
structure Product where
  id : Int
  name : String
  description : Option String
  price : PyFloat
  category_id : Int
  image_url : Option String
  stock : Int
  is_active : Bool
deriving DecidableEq

/-- `app/models/cart.py` `Cart` row. -/
structure CartRec where
  id : Int
  user_id : Int
deriving DecidableEq

/-- `app/models/cart.py` `CartItem` row. -/
structure CartItemRec where
  id : Int
  cart_id : Int
  product_id : Int
  quantity : Int
  price_at_time : PyFloat
deriving DecidableEq

/-- `app/models/order.py` `Order` row.  The status column is
`Column(String(20))`: values read back from the database are plain
strings, not `OrderStatus` enum members. -/
structure OrderRec where
  id : Int
  user_id : Int
  total_price : PyFloat
  status : String
  shipping_address : String
  payment_method : String
deriving DecidableEq

/-- `app/models/order.py` `OrderItem` row.  The unit-price column is named
`price` (the schema layer calls the same concept price_at_time). -/
structure OrderItemRec where
  id : Int
  order_id : Int
  product_id : Int
  quantity : Int
  price : PyFloat
deriving DecidableEq

/-- The database state seen by the handlers, one list per table plus the
autoincrement counters the success paths need. -/
structure DB where
  users : List UserRec
  categories : List CategoryRec
  products : List Product
  carts : List CartRec
  cartItems : List CartItemRec
  orders : List OrderRec
  orderItems : List OrderItemRec
  nextUserId : Int
  nextCartId : Int
  nextCartItemId : Int
  nextOrderId : Int
  nextOrderItemId : Int
deriving DecidableEq

/-- SQLAlchemy declarative constructor check: `Model(**kwargs)` raises
`TypeError` unless every keyword is an attribute of the mapped class. -/
def declInitOk (attrs kwargs : List String) : Bool :=
  kwargs.all (fun k => attrs.contains k)

/-- pydantic model construction check: raises `ValidationError` unless
every required (no-default) field is among the passed keywords; extra
keywords are ignored under the default config. -/
def pydanticInitOk (required provided : List String) : Bool :=
  required.all (fun r => provided.contains r)

/-- Python `str.lower()`, character by character. -/
def pyLower (s : String) : String :=
  String.mk (s.toList.map Char.toLower)

/-- Python `str.strip()`: drop leading and trailing whitespace. -/
def pyStrip (s : String) : String :=
  String.mk (((s.toList.dropWhile Char.isWhitespace).reverse.dropWhile
    Char.isWhitespace).reverse)

/-! ## C9 — `app/utils/image_handler.py` `delete_image` -/

/-- `Path.unlink()` on the abstract filesystem (the list of existing file
paths): removes the file, `FileNotFoundError` if it does not exist. -/
def pathUnlink (fs : List String) (p : String) : Except String (List String) :=
  if fs.contains p then .ok (fs.erase p) else .error "FileNotFoundError"

/-- Body of the `try:` block of `delete_image` (lines 121-125): if the
path is non-empty (Python truthiness of `str`) and starts with
`uploads/`, and the file exists, unlink it. -/
def delete_image_body (fs : List String) (image_path : String) : Except String (List String) :=
  if image_path != "" && image_path.startsWith "uploads/" then
    if fs.contains image_path then pathUnlink fs image_path else .ok fs
  else .ok fs

/-- `delete_image` (lines 114-127): the `except Exception` clause logs and
swallows any failure, so the caller always gets back a filesystem. -/
def delete_image (fs : List String) (image_path : String) : List String :=
  match delete_image_body fs image_path with
  | .ok fs' => fs'
  | .error _ => fs

/-- Claim C9 — For every input path, `delete_image` removes a file only when
the path is non-empty, starts with the literal prefix `uploads/`, and the
file exists — in that case exactly that file is removed (`List.erase`) —
and for any other path it removes nothing; the body never raises to the
caller (the `try` body itself already never errors, and the `except`
clause would swallow an error anyway). -/
theorem delete_image_only_removes_guarded_existing_path
    (fs : List String) (p : String) :
    delete_image fs p =
      (if p != "" && p.startsWith "uploads/" && fs.contains p then fs.erase p else fs) ∧
    delete_image_body fs p = .ok (delete_image fs p) := by
  unfold delete_image delete_image_body pathUnlink
  by_cases h0 : (p != "") = true <;>
    by_cases h1 : p.startsWith "uploads/" = true <;>
      by_cases h2 : p ∈ fs <;>
        simp [h0, h1, h2]

/-! ## C5 — `app/routers/auth.py` `register` and the `User` model -/

/-- Attributes defined on the mapped `User` class
(`app/models/user.py` lines 15-27: columns plus relationships). -/
def userModelAttrs : List String :=
  ["id", "email", "username", "hashed_password", "full_name",
   "is_active", "is_admin", "created_at", "updated_at", "cart", "orders"]

/-- Keywords passed to `User(...)` by `register`
(`app/routers/auth.py` lines 49-56). -/
def registerUserKwargs : List String :=
  ["email", "username", "password", "full_name", "is_active", "is_admin"]

/-- Modelled from the spec: `app.core.security.hash_password` — the module
`app/core/security.py` is not part of the supplied sources, only its call
sites are.  Per the spec it is a salted one-way hash of the plaintext;
modelled as an abstract deterministic tagging, enough for the claims,
which never invert it. -/
def hash_password (plaintext : String) : String :=
  "bcrypt-hash-of " ++ plaintext

/-- `UserCreate` request payload (`app/schemas/user.py` lines 7-15). -/
structure UserCreateReq where
  email : String
  username : String
  password : String
  full_name : Option String
deriving DecidableEq

/-- `register` (`app/routers/auth.py` lines 15-62): duplicate-email and
duplicate-username checks, then `User(email=..., username=...,
password=hashed, full_name=..., is_active=True, is_admin=False)` — the
keyword `password` is not an attribute of the mapped `User` class, so the
declarative constructor raises `TypeError` before anything is added to
the session. -/
def register (db : DB) (u : UserCreateReq) : Outcome UserRec × DB :=
  if (db.users.find? (fun x => x.email == u.email)).isSome then
    (.httpError 400 "Email já cadastrado", db)
  else if (db.users.find? (fun x => x.username == u.username)).isSome then
    (.httpError 400 "Username já cadastrado", db)
  else
    let hashed := hash_password u.password
    if declInitOk userModelAttrs registerUserKwargs then
      let newUser : UserRec :=
        { id := db.nextUserId, email := u.email, username := u.username,
          hashed_password := hashed, full_name := u.full_name,
          is_active := true, is_admin := false }
      (.ok newUser,
        { db with users := db.users ++ [newUser], nextUserId := db.nextUserId + 1 })
    else
      (.raised "TypeError: password is an invalid keyword argument for User", db)

/-- The empty database. -/
def emptyDB : DB :=
  { users := [], categories := [], products := [], carts := [], cartItems := [],
    orders := [], orderItems := [], nextUserId := 1, nextCartId := 1,
    nextCartItemId := 1, nextOrderId := 1, nextOrderItemId := 1 }

/-- Claim C5 — the claim fails on the code: a registration whose email and
username collide with nothing does not persist a `User` with the password
hash in the model's `hashed_password` field; the handler passes the
keyword `password` to a mapped class that only defines `hashed_password`,
so SQLAlchemy's declarative constructor raises `TypeError` (surfaced as a
500) and no user row is created. -/
theorem register_raises_TypeError_on_fresh_credentials :
    register emptyDB
      { email := "ana@example.com", username := "ana", password := "SecurePass123!",
        full_name := some "Ana Silva" }
      = (.raised "TypeError: password is an invalid keyword argument for User",
         emptyDB) := by
  decide

/-! ## C6 — `app/schemas/user.py` `UserCreate` password validation -/

/-- Password acceptance implemented by the `UserCreate` schema: the only
constraint on the field is `Field(..., min_length=6)`
(`app/schemas/user.py` line 14); no strength validator exists. -/
def userCreatePasswordOk (pw : String) : Bool :=
  pw.length ≥ 6

/-- Modelled from the spec: the password-strength rule the spec (and the
schema test suite `tests/test_schemas/test_user_schemas.py`) demand —
length at least 8, at least one uppercase letter, one digit, and one
symbol from a fixed punctuation set.  Stated for comparison with
`userCreatePasswordOk`, the rule the source actually implements. -/
def passwordStrengthSpec (pw : String) : Bool :=
  pw.length ≥ 8 &&
  pw.toList.any (fun c => c.isUpper) &&
  pw.toList.any (fun c => c.isDigit) &&
  pw.toList.any (fun c => "!@#$%^&*(),.?:;_-+=".toList.contains c)

/-- Claim C6 — the claim fails on the code: `UserCreate` accepts
`securepass123!` (no uppercase), `SecurePass123` (no symbol) and
`Short1!` (length 7), all of which the claimed strength gate — asserted
by the repository's own schema tests — rejects; the schema's only
password constraint is a minimum length of 6. -/
theorem userCreate_accepts_passwords_the_strength_gate_rejects :
    userCreatePasswordOk "securepass123!" = true ∧
    userCreatePasswordOk "SecurePass123" = true ∧
    userCreatePasswordOk "Short1!" = true ∧
    userCreatePasswordOk "SecurePass123!" = true ∧
    passwordStrengthSpec "securepass123!" = false ∧
    passwordStrengthSpec "SecurePass123" = false ∧
    passwordStrengthSpec "Short1!" = false ∧
    passwordStrengthSpec "SecurePass123!" = true := by
  decide

/-! ## C8 — `app/routers/stock.py` `validate_stock` -/

/-- `OrderItemCreate` as defined in `app/schemas/order.py` lines 16-35
(`OrderItemBase` fields): product_id and quantity only.  This is the item
shape used by both the Stock and the Orders routers, which import it from
`app.schemas.order`. -/
structure OrderItemReq where
  product_id : Int
  quantity : Int
deriving DecidableEq

/-- One entry of the unavailable-items list built by the Stock router.
The handlers build plain dicts; keys that a given entry omits are `none`
(`validate_stock` omits product_name for a missing product, `checkout`
entries carry no reason key). -/
structure UnavailEntry where
  product_id : Int
  product_name : Option String
  requested_quantity : Int
  available_quantity : Int
  reason : Option String
deriving DecidableEq

/-- The loop of `validate_stock` (`app/routers/stock.py` lines 36-55):
collects an entry per missing product (available 0, reason not-found) or
per short-stocked product (reason insufficient with the available count),
purely reading `products`. -/
def validateStockLoop (db : DB) : List OrderItemReq → List UnavailEntry → List UnavailEntry
  | [], acc => acc
  | item :: rest, acc =>
    match db.products.find? (fun p => p.id == item.product_id) with
    | none =>
        validateStockLoop db rest (acc ++
          [{ product_id := item.product_id, product_name := none,
             requested_quantity := item.quantity, available_quantity := 0,
             reason := some "Produto não encontrado" }])
    | some p =>
        if p.stock < item.quantity then
          validateStockLoop db rest (acc ++
            [{ product_id := item.product_id, product_name := some p.name,
               requested_quantity := item.quantity, available_quantity := p.stock,
               reason := some ("Estoque insuficiente. Disponível: " ++ toString p.stock) }])
        else
          validateStockLoop db rest acc

/-- Required (defaultless) fields of `StockValidationResponse` as declared
in `app/schemas/order.py` lines 117-124: valid and message
(items_status defaults to `[]`). -/
def stockValidationResponseRequired : List String := ["valid", "message"]

/-- Keywords the handler passes to `StockValidationResponse(...)`
(`app/routers/stock.py` lines 61-65). -/
def validateStockResponseKwargs : List String := ["is_valid", "message", "unavailable_items"]

/-- The response value `validate_stock` tries to build. -/
structure StockValidationResult where
  valid : Bool
  message : String
  items : List UnavailEntry
deriving DecidableEq

/-- `validate_stock` (`app/routers/stock.py` lines 17-65): computes the
unavailable-items list without mutating anything, then constructs
`StockValidationResponse(is_valid=..., message=..., unavailable_items=...)`
— but the schema it imports declares `valid`/`items_status`, so the
required field `valid` is missing and pydantic raises `ValidationError`. -/
def validate_stock (db : DB) (items : List OrderItemReq) : Outcome StockValidationResult × DB :=
  let unavailable := validateStockLoop db items []
  let isValid := unavailable.isEmpty
  let message :=
    if isValid then "Todos os itens têm estoque disponível"
    else "Alguns itens não têm estoque suficiente"
  if pydanticInitOk stockValidationResponseRequired validateStockResponseKwargs then
    (.ok { valid := isValid, message := message, items := unavailable }, db)
  else
    (.raised "ValidationError: field valid required", db)

/-- A one-product catalog used as the concrete state for the Stock-router
counterexamples: product 1 is active with stock 5. -/
def stockDB : DB :=
  { emptyDB with
      products := [{ id := 1, name := "Produto A", description := none,
                     price := 10, category_id := 1, image_url := none,
                     stock := 5, is_active := true }] }

/-- Claim C8 — the claim fails on the code: even for a request whose only
item is fully in stock (product 1, quantity 2, stock 5), `validate_stock`
never returns the validity flag; the handler passes keywords
`is_valid`/`unavailable_items` to a response schema that declares
`valid`/`items_status`, so pydantic raises `ValidationError` (a 500).
The frame half of the claim does hold: the database is returned
unchanged. -/
theorem validate_stock_raises_ValidationError :
    validate_stock stockDB [{ product_id := 1, quantity := 2 }]
      = (.raised "ValidationError: field valid required", stockDB) := by
  decide

/-! ## C4 — `app/routers/ordens.py` `cancel_order` -/

/-- Stock restoration loop of `cancel_order` (lines 316-318): for each
line item of the order, add its quantity back to the referenced product's
stock.  Product ids are primary keys, hence unique, so updating every row
with the matching id coincides with SQLAlchemy's mutation of the single
fetched row. -/
def restoreStock (products : List Product) : List OrderItemRec → List Product
  | [] => products
  | it :: rest =>
    restoreStock
      (products.map (fun p =>
        if p.id == it.product_id then { p with stock := p.stock + it.quantity } else p))
      rest

/-- `cancel_order` (`app/routers/ordens.py` lines 274-323).  The order's
status column is a plain `String(20)`; a value loaded from the database is
a Python `str`.  The guard `order.status != OrderStatus.PENDING` compares
strings (the enum is a str mixin), and the 400 branch then evaluates
`order.status.value` inside the f-string — `str` has no attribute
`value`, so the branch raises `AttributeError` instead of returning the
`HTTPException`.  The pending branch sets the status to cancelled and
restores stock for every line item; if a line's product no longer exists
the `product.stock += ...` line would itself raise on `None`. -/
def cancel_order (db : DB) (userId : Int) (orderId : Int) : Outcome OrderRec × DB :=
  match db.orders.find? (fun o => o.id == orderId && o.user_id == userId) with
  | none => (.httpError 404 "Pedido não encontrado", db)
  | some o =>
    if o.status != "pending" then
      (.raised "AttributeError: str object has no attribute value", db)
    else
      let items := db.orderItems.filter (fun it => it.order_id == o.id)
      if items.all (fun it => (db.products.find? (fun p => p.id == it.product_id)).isSome) then
        let cancelled : OrderRec := { o with status := "cancelled" }
        (.ok cancelled,
          { db with
              orders := db.orders.map (fun x => if x.id == o.id then { x with status := "cancelled" } else x),
              products := restoreStock db.products items })
      else
        (.raised "AttributeError: NoneType object has no attribute stock", db)

/-- Concrete state for the cancel-order counterexample: user 7 owns order
1 whose status is confirmed. -/
def cancelDB : DB :=
  { emptyDB with
      orders := [{ id := 1, user_id := 7, total_price := 20, status := "confirmed",
                   shipping_address := "Rua das Flores, 123", payment_method := "pix" }] }

/-- Claim C4 — the claim fails on the code: cancelling an owned order whose
status is not pending does not produce the claimed 400 naming the status;
because the status column holds a plain string, evaluating
`order.status.value` for the 400 message raises `AttributeError`
(surfaced as a 500) and nothing is returned to the caller as a 400.
(The pending branch — set to cancelled and restore stock — is reachable
and behaves as described.) -/
theorem cancel_order_raises_AttributeError_on_confirmed_order :
    cancel_order cancelDB 7 1
      = (.raised "AttributeError: str object has no attribute value", cancelDB) := by
  decide

/-! ## C1 — `app/routers/ordens.py` `create_order` -/

/-- `OrderCreate` request payload (`app/schemas/order.py` lines 50-84). -/
structure OrderCreateReq where
  items : List OrderItemReq
  shipping_address : String
  payment_method : String
deriving DecidableEq

/-- Per-item constraints of `OrderItemBase` (`app/schemas/order.py` lines
16-30): positive product id, quantity in (0, 1000]. -/
def validOrderItemCreate (i : OrderItemReq) : Bool :=
  i.product_id > 0 && i.quantity > 0 && i.quantity ≤ 1000

/-- The fixed payment-method set of the `OrderCreate` validator
(`app/schemas/order.py` line 81). -/
def validPaymentMethods : List String :=
  ["credit_card", "debit_card", "pix", "boleto", "paypal"]

/-- `OrderCreate` schema validation (`app/schemas/order.py` lines 50-84):
1-100 items each satisfying the item constraints, shipping address of
length 10-500 containing a digit, payment method of length 3-50 whose
lowercase form is in the fixed set (the validator also lowercases the
stored value; the concrete inputs below are already lowercase). -/
def orderCreateValid (req : OrderCreateReq) : Bool :=
  req.items.length ≥ 1 && req.items.length ≤ 100 &&
  req.items.all validOrderItemCreate &&
  req.shipping_address.length ≥ 10 && req.shipping_address.length ≤ 500 &&
  req.shipping_address.toList.any (fun c => c.isDigit) &&
  req.payment_method.length ≥ 3 && req.payment_method.length ≤ 50 &&
  validPaymentMethods.contains (pyLower req.payment_method)

/-- Attributes defined on the mapped `Order` class
(`app/models/order.py` lines 21-37). -/
def orderModelAttrs : List String :=
  ["id", "user_id", "total_price", "status", "shipping_address",
   "payment_method", "created_at", "updated_at", "user", "items",
   "calculated_total"]

/-- Attributes defined on the mapped `OrderItem` class
(`app/models/order.py` lines 44-58).  The unit-price column is `price`;
there is no price_at_time attribute. -/
def orderItemModelAttrs : List String :=
  ["id", "order_id", "product_id", "quantity", "price", "created_at",
   "order", "product", "subtotal"]

/-- Keywords passed to `Order(...)` by `create_order`
(`app/routers/ordens.py` lines 236-242). -/
def ordersRouterOrderKwargs : List String :=
  ["user_id", "total_price", "shipping_address", "payment_method", "status"]

/-- Keywords passed to `OrderItem(...)` by `create_order`
(`app/routers/ordens.py` lines 249-254) — including price_at_time, which
is not an `OrderItem` attribute. -/
def ordersRouterOrderItemKwargs : List String :=
  ["order_id", "product_id", "quantity", "price_at_time"]

/-- Validation loop of `create_order` (lines 180-219): reject duplicated
product ids, missing products, inactive products, and short stock;
accumulate the catalog-priced total and the (product id, quantity,
catalog price) データ for the item-creation loop. -/
def processOrderItems (db : DB) :
    List OrderItemReq → List Int → PyFloat → List (Int × Int × PyFloat) →
    Outcome (PyFloat × List (Int × Int × PyFloat))
  | [], _, total, acc => .ok (total, acc)
  | item :: rest, seen, total, acc =>
    if seen.contains item.product_id then
      .httpError 400 ("Produto com ID " ++ toString item.product_id ++
        " aparece mais de uma vez no pedido")
    else
      match db.products.find? (fun p => p.id == item.product_id) with
      | none =>
          .httpError 404 ("Produto com ID " ++ toString item.product_id ++ " não encontrado")
      | some p =>
          if !p.is_active then
            .httpError 400 ("Produto " ++ p.name ++ " não está disponível para compra")
          else if p.stock < item.quantity then
            .httpError 400 ("Estoque insuficiente para " ++ p.name ++
              ". Disponível: " ++ toString p.stock ++ ", Solicitado: " ++ toString item.quantity)
          else
            processOrderItems db rest (seen ++ [item.product_id])
              (total + p.price * (item.quantity : PyFloat))
              (acc ++ [(item.product_id, item.quantity, p.price)])

/-- `OrderItem(**kwargs)` via the declarative constructor: yields the row
only when every keyword is an `OrderItem` attribute. -/
def mkOrderItem (kwargs : List String) (nid oid pid qty : Int) (price : PyFloat) :
    Except String OrderItemRec :=
  if declInitOk orderItemModelAttrs kwargs then
    .ok { id := nid, order_id := oid, product_id := pid, quantity := qty, price := price }
  else
    .error "TypeError: invalid keyword argument for OrderItem"

/-- Item-creation loop of `create_order` (lines 248-255): one
`OrderItem(order_id=..., product_id=..., quantity=..., price_at_time=...)`
per validated line. -/
def buildOrderItems (oid : Int) (nid : Int) :
    List (Int × Int × PyFloat) → Except String (List OrderItemRec)
  | [] => .ok []
  | (pid, qty, pr) :: rest =>
    match mkOrderItem ordersRouterOrderItemKwargs nid oid pid qty pr with
    | .error e => .error e
    | .ok it => (buildOrderItems oid (nid + 1) rest).map (fun its => it :: its)

/-- Stock-decrement loop of `create_order` (lines 258-261). -/
def decrementStock (products : List Product) : List (Int × Int × PyFloat) → List Product
  | [] => products
  | (pid, qty, _) :: rest =>
    decrementStock
      (products.map (fun p => if p.id == pid then { p with stock := p.stock - qty } else p))
      rest

/-- `create_order` (`app/routers/ordens.py` lines 141-271): validations,
`Order(...)` construction and flush, then the `OrderItem` loop — whose
very first construction passes the keyword price_at_time to a mapped
class whose column is named `price`, raising `TypeError`; the session is
closed without commit, so the flushed order, the stock decrements and the
cart clearing are all rolled back. -/
def create_order (db : DB) (userId : Int) (req : OrderCreateReq) : Outcome OrderRec × DB :=
  if req.items.length == 0 then
    (.httpError 400 "Pedido deve conter pelo menos um item", db)
  else if req.items.length > 100 then
    (.httpError 400 "Pedido não pode conter mais de 100 itens diferentes", db)
  else
    match processOrderItems db req.items [] 0 [] with
    | .httpError s d => (.httpError s d, db)
    | .raised e => (.raised e, db)
    | .ok (total, itemsData) =>
      if total ≤ 0 then
        (.httpError 400 "Preço total do pedido deve ser maior que zero", db)
      else if pyStrip req.shipping_address == "" then
        (.httpError 400 "Endereço de entrega é obrigatório", db)
      else if declInitOk orderModelAttrs ordersRouterOrderKwargs then
        let order : OrderRec :=
          { id := db.nextOrderId, user_id := userId, total_price := total,
            status := "pending", shipping_address := req.shipping_address,
            payment_method := req.payment_method }
        match buildOrderItems order.id db.nextOrderItemId itemsData with
        | .error e => (.raised e, db)
        | .ok newItems =>
          let products' := decrementStock db.products itemsData
          let cartItems' :=
            match db.carts.find? (fun c => c.user_id == userId) with
            | some cart => db.cartItems.filter (fun ci => !(ci.cart_id == cart.id))
            | none => db.cartItems
          (.ok order,
            { db with
                orders := db.orders ++ [order],
                orderItems := db.orderItems ++ newItems,
                products := products',
                cartItems := cartItems',
                nextOrderId := db.nextOrderId + 1,
                nextOrderItemId := db.nextOrderItemId + newItems.length })
      else
        (.raised "TypeError: invalid keyword argument for Order", db)

/-- Catalog for the order-creation counterexample: the spec's own worked
example — product A costs 10.00 with stock 5, product B costs 5.00 with
stock 9, both active; user 7 owns a cart holding product A. -/
def ordersDB : DB :=
  { emptyDB with
      products :=
        [{ id := 1, name := "Produto A", description := none, price := 10,
           category_id := 1, image_url := none, stock := 5, is_active := true },
         { id := 2, name := "Produto B", description := none, price := 5,
           category_id := 1, image_url := none, stock := 9, is_active := true }],
      carts := [{ id := 1, user_id := 7 }],
      cartItems := [{ id := 1, cart_id := 1, product_id := 1, quantity := 1,
                      price_at_time := 10 }],
      nextCartId := 2, nextCartItemId := 2 }

/-- The spec's worked order request: product A quantity 2, product B
quantity 3 (total would be 35.00), valid address and payment method. -/
def ordersReq : OrderCreateReq :=
  { items := [{ product_id := 1, quantity := 2 }, { product_id := 2, quantity := 3 }],
    shipping_address := "Rua das Flores, 123",
    payment_method := "pix" }

/-- Claim C1 — the claim fails on the code: for a schema-valid request whose
items all reference existing, active products with sufficient stock,
`create_order` persists nothing — the first `OrderItem` construction
passes the keyword price_at_time to a model whose column is named
`price`, so SQLAlchemy raises `TypeError` (a 500) and the transaction is
rolled back: no pending order, no items, no stock decrement, no cart
clearing. -/
theorem create_order_raises_TypeError_on_valid_request :
    orderCreateValid ordersReq = true ∧
    create_order ordersDB 7 ordersReq
      = (.raised "TypeError: invalid keyword argument for OrderItem", ordersDB) := by
  constructor
  · decide
  · decide

/-! ## C2, C10 — `app/routers/stock.py` `checkout` -/

/-- `getattr(item, "price")` on an `OrderItemCreate` instance: the schema
the Stock router imports (`app/schemas/order.py` lines 16-35) defines
only product_id and quantity, so the lookup raises `AttributeError` —
modelled as `none`. -/
def orderItemCreateGetPrice (_item : OrderItemReq) : Option PyFloat := none

/-- Keywords passed to `Order(...)` by `checkout`
(`app/routers/stock.py` lines 124-129): no status keyword, the column
default pending applies. -/
def stockRouterOrderKwargs : List String :=
  ["user_id", "total_price", "shipping_address", "payment_method"]

/-- Keywords passed to `OrderItem(...)` by `checkout`
(`app/routers/stock.py` lines 139-144). -/
def stockRouterOrderItemKwargs : List String :=
  ["order_id", "product_id", "quantity", "price"]

/-- Validation loop of `checkout` (lines 93-111): 404 as soon as a
product is missing; otherwise record short-stocked lines, then evaluate
`total_price += item.price * item.quantity` — an attribute access that
raises `AttributeError` on the first line reached. -/
def checkoutLoop (db : DB) :
    List OrderItemReq → List UnavailEntry → PyFloat →
    Outcome (PyFloat × List UnavailEntry)
  | [], unavail, total => .ok (total, unavail)
  | item :: rest, unavail, total =>
    match db.products.find? (fun p => p.id == item.product_id) with
    | none =>
        .httpError 404 ("Produto com ID " ++ toString item.product_id ++ " não encontrado")
    | some p =>
        let unavail' :=
          if p.stock < item.quantity then
            unavail ++
              [{ product_id := item.product_id, product_name := some p.name,
                 requested_quantity := item.quantity, available_quantity := p.stock,
                 reason := none }]
          else unavail
        match orderItemCreateGetPrice item with
        | some pr => checkoutLoop db rest unavail' (total + pr * (item.quantity : PyFloat))
        | none => .raised "AttributeError: OrderItemCreate object has no attribute price"

/-- Item-creation loop of `checkout` (lines 135-149): per line, an
`OrderItem(order_id=..., product_id=..., quantity=..., price=item.price)`
— the keywords are all valid `OrderItem` attributes, but `item.price` is
again an attribute the request schema does not define — and the stock
decrement. -/
def checkoutBuildItems (oid : Int) (nid : Int) :
    List OrderItemReq → List Product → Except String (List OrderItemRec × List Product)
  | [], products => .ok ([], products)
  | item :: rest, products =>
    match orderItemCreateGetPrice item with
    | none => .error "AttributeError: OrderItemCreate object has no attribute price"
    | some pr =>
      match mkOrderItem stockRouterOrderItemKwargs nid oid item.product_id item.quantity pr with
      | .error e => .error e
      | .ok it =>
        let products' := products.map (fun p =>
          if p.id == item.product_id then { p with stock := p.stock - item.quantity } else p)
        (checkoutBuildItems oid (nid + 1) rest products').map
          (fun r => (it :: r.1, r.2))

/-- `checkout` (`app/routers/stock.py` lines 68-154): validation loop,
aggregate 400 when any line is short (the real detail payload also
carries the unavailable list; only its message is kept here since the
branch is unreachable — the loop raises before it on every non-empty
request), then order creation, item creation, stock decrement and commit.
The handler never reads or writes carts or cart items. -/
def checkout (db : DB) (userId : Int) (req : OrderCreateReq) : Outcome OrderRec × DB :=
  match checkoutLoop db req.items [] 0 with
  | .raised e => (.raised e, db)
  | .httpError s d => (.httpError s d, db)
  | .ok (total, unavail) =>
    if !unavail.isEmpty then
      (.httpError 400 "Alguns itens não têm estoque suficiente", db)
    else if declInitOk orderModelAttrs stockRouterOrderKwargs then
      let order : OrderRec :=
        { id := db.nextOrderId, user_id := userId, total_price := total,
          status := "pending", shipping_address := req.shipping_address,
          payment_method := req.payment_method }
      match checkoutBuildItems order.id db.nextOrderItemId req.items db.products with
      | .error e => (.raised e, db)
      | .ok (newItems, products') =>
        (.ok order,
          { db with
              orders := db.orders ++ [order],
              orderItems := db.orderItems ++ newItems,
              products := products',
              nextOrderId := db.nextOrderId + 1,
              nextOrderItemId := db.nextOrderItemId + newItems.length })
    else
      (.raised "TypeError: invalid keyword argument for Order", db)

/-- A schema-valid checkout request for one fully-stocked product. -/
def checkoutReq : OrderCreateReq :=
  { items := [{ product_id := 1, quantity := 2 }],
    shipping_address := "Rua das Flores, 123",
    payment_method := "pix" }

/-- Claim C2 — the claim fails on the code: a checkout whose single item
references an existing product with ample stock (product 1, quantity 2,
stock 5) reaches `total_price += item.price * item.quantity` and raises
`AttributeError` — the `OrderItemCreate` schema the router imports
defines no price field — so no caller-priced order is ever created and
the aggregated insufficient-stock 400 is unreachable as well. -/
theorem checkout_raises_AttributeError_on_valid_request :
    orderCreateValid checkoutReq = true ∧
    checkout stockDB 7 checkoutReq
      = (.raised "AttributeError: OrderItemCreate object has no attribute price",
         stockDB) := by
  constructor
  · decide
  · decide

/-- Claim C10 — `checkout` leaves the carts and cart-items tables of the
database untouched on every execution path (in particular on any
successful one): the handler contains no cart access at all, unlike
`create_order`, whose code goes on to clear the caller's cart items. -/
theorem checkout_never_touches_carts (db : DB) (userId : Int) (req : OrderCreateReq) :
    (checkout db userId req).2.carts = db.carts ∧
    (checkout db userId req).2.cartItems = db.cartItems := by
  unfold checkout
  rcases checkoutLoop db req.items [] 0 with ⟨total, unavail⟩ | ⟨s, d⟩ | e
  · by_cases hu : unavail.isEmpty
    · rcases hb : checkoutBuildItems db.nextOrderId db.nextOrderItemId req.items db.products
        with e | ⟨newItems, products'⟩
      · simp [hu, hb, declInitOk, orderModelAttrs, stockRouterOrderKwargs]
      · simp [hu, hb, declInitOk, orderModelAttrs, stockRouterOrderKwargs]
    · simp [hu]
  · simp
  · simp

/-! ## C3 — `app/routers/cart.py` `add_item_to_cart` -/

/-- `CartItemCreate` request payload (`app/schemas/cart.py` lines 6-9):
product_id unconstrained, quantity constrained positive by the schema
(the handler re-checks both). -/
structure CartItemCreateReq where
  product_id : Int
  quantity : Int
deriving DecidableEq

/-- Lines 171-176 of the handler: fetch the caller's cart, lazily
creating (and flushing) one when absent. -/
def getOrCreateCart (db : DB) (userId : Int) : CartRec × DB :=
  match db.carts.find? (fun c => c.user_id == userId) with
  | some c => (c, db)
  | none =>
    let c : CartRec := { id := db.nextCartId, user_id := userId }
    (c, { db with carts := db.carts ++ [c], nextCartId := db.nextCartId + 1 })

/-- `add_item_to_cart` (`app/routers/cart.py` lines 105-225): input
guards, product existence/activity/stock checks, lazy cart creation,
then merge-or-insert on the (cart_id, product_id) pair.  Every error
path returns the original state (the transaction, including a lazily
created cart, is rolled back when the session closes without commit). -/
def add_item_to_cart (db : DB) (userId : Int) (item : CartItemCreateReq) :
    Outcome CartItemRec × DB :=
  if item.product_id ≤ 0 then
    (.httpError 400 "ID do produto deve ser um número positivo", db)
  else if item.quantity ≤ 0 then
    (.httpError 400 "Quantidade deve ser maior que zero", db)
  else if 1000 < item.quantity then
    (.httpError 400 "Quantidade não pode exceder 1000 unidades", db)
  else
    match db.products.find? (fun p => p.id == item.product_id) with
    | none =>
        (.httpError 404 ("Produto com ID " ++ toString item.product_id ++ " não encontrado"), db)
    | some product =>
      if product.is_active = false then
        (.httpError 400 ("Produto " ++ product.name ++ " não está disponível para compra"), db)
      else if product.stock < item.quantity then
        (.httpError 400 ("Estoque insuficiente para " ++ product.name ++
          ". Disponível: " ++ toString product.stock ++
          ", Solicitado: " ++ toString item.quantity), db)
      else
        match (getOrCreateCart db userId).2.cartItems.find? (fun ci =>
            ci.cart_id == (getOrCreateCart db userId).1.id &&
            ci.product_id == item.product_id) with
        | some ci =>
          if 1000 < ci.quantity + item.quantity then
            (.httpError 400 ("Quantidade total não pode exceder 1000 unidades. Atual: " ++
              toString ci.quantity ++ ", Solicitado: " ++ toString item.quantity), db)
          else if product.stock < ci.quantity + item.quantity then
            (.httpError 400 ("Estoque insuficiente para " ++ product.name ++
              ". Disponível: " ++ toString product.stock ++
              ", Total solicitado: " ++ toString (ci.quantity + item.quantity)), db)
          else
            (.ok { ci with quantity := ci.quantity + item.quantity },
              { (getOrCreateCart db userId).2 with
                  cartItems := (getOrCreateCart db userId).2.cartItems.map (fun x =>
                    if x.id == ci.id then { x with quantity := ci.quantity + item.quantity } else x) })
        | none =>
          if 100 ≤ (getOrCreateCart db userId).2.cartItems.countP
              (fun ci => ci.cart_id == (getOrCreateCart db userId).1.id) then
            (.httpError 400 "Carrinho não pode conter mais de 100 produtos diferentes", db)
          else
            (.ok { id := (getOrCreateCart db userId).2.nextCartItemId,
                   cart_id := (getOrCreateCart db userId).1.id,
                   product_id := item.product_id, quantity := item.quantity,
                   price_at_time := product.price },
              { (getOrCreateCart db userId).2 with
                  cartItems := (getOrCreateCart db userId).2.cartItems ++
                    [{ id := (getOrCreateCart db userId).2.nextCartItemId,
                       cart_id := (getOrCreateCart db userId).1.id,
                       product_id := item.product_id, quantity := item.quantity,
                       price_at_time := product.price }],
                  nextCartItemId := (getOrCreateCart db userId).2.nextCartItemId + 1 })

/-- Two cart items are pair-distinct when they do not share the same
(cart_id, product_id) key. -/
def pairDistinct (a b : CartItemRec) : Prop :=
  ¬(a.cart_id = b.cart_id ∧ a.product_id = b.product_id)

instance : DecidableRel pairDistinct := fun a b => by
  unfold pairDistinct
  infer_instance

/-- The cart-items invariant of the spec: at most one `CartItem` row per
(cart_id, product_id) pair. -/
def PairUniq (l : List CartItemRec) : Prop :=
  l.Pairwise pairDistinct

instance (l : List CartItemRec) : Decidable (PairUniq l) := by
  unfold PairUniq
  infer_instance

/-- `getOrCreateCart` never touches the cart-items table. -/
theorem getOrCreateCart_cartItems (db : DB) (userId : Int) :
    (getOrCreateCart db userId).2.cartItems = db.cartItems := by
  unfold getOrCreateCart
  split <;> rfl

/-- When the caller already owns a cart, `getOrCreateCart` returns it and
leaves the database untouched. -/
theorem getOrCreateCart_of_found (db : DB) (userId : Int) (c : CartRec)
    (hc : db.carts.find? (fun x => x.user_id == userId) = some c) :
    getOrCreateCart db userId = (c, db) := by
  unfold getOrCreateCart
  rw [hc]

/-- Updating the quantity of one row (by primary key) keeps the
pair-uniqueness invariant: the (cart_id, product_id) keys of all rows are
untouched. -/
theorem pairUniq_map_quantity (l : List CartItemRec) (cid nq : Int)
    (hu : PairUniq l) :
    PairUniq (l.map (fun x => if x.id == cid then { x with quantity := nq } else x)) := by
  refine List.Pairwise.map _ ?_ hu
  intro a b hab
  unfold pairDistinct at *
  by_cases ha : (a.id == cid) = true <;> by_cases hb : (b.id == cid) = true <;>
    simp [ha, hb] <;> exact fun h1 h2 => hab ⟨h1, h2⟩

/-- Appending a row whose (cart_id, product_id) pair occurs nowhere in
the list keeps the pair-uniqueness invariant. -/
theorem pairUniq_append_new (l : List CartItemRec) (new : CartItemRec)
    (hu : PairUniq l)
    (hnone : ∀ x ∈ l, ¬(x.cart_id = new.cart_id ∧ x.product_id = new.product_id)) :
    PairUniq (l ++ [new]) := by
  unfold PairUniq
  rw [List.pairwise_append]
  refine ⟨hu, List.pairwise_singleton _ _, ?_⟩
  intro a ha b hb
  rcases List.mem_singleton.mp hb with rfl
  exact hnone a ha

/-- A failed pair lookup means no row carries that pair. -/
theorem find?_pair_none (l : List CartItemRec) (c p : Int)
    (h : l.find? (fun x => x.cart_id == c && x.product_id == p) = none) :
    ∀ x ∈ l, ¬(x.cart_id = c ∧ x.product_id = p) := by
  intro x hx
  have hh := List.find?_eq_none.mp h x hx
  simpa using hh

/-- One call of `add_item_to_cart` — successful or not — preserves the
at-most-one-row-per-pair invariant. -/
theorem pairUniq_step (db : DB) (userId : Int) (item : CartItemCreateReq)
    (hu : PairUniq db.cartItems) :
    PairUniq (add_item_to_cart db userId item).2.cartItems := by
  have hgc := getOrCreateCart_cartItems db userId
  unfold add_item_to_cart
  split
  · exact hu
  split
  · exact hu
  split
  · exact hu
  split
  · exact hu
  rename_i product _
  split
  · exact hu
  split
  · exact hu
  split
  · rename_i ci _
    split
    · exact hu
    split
    · exact hu
    · show PairUniq ((getOrCreateCart db userId).2.cartItems.map _)
      rw [hgc]
      exact pairUniq_map_quantity _ _ _ hu
  · rename_i hfind
    split
    · exact hu
    · show PairUniq ((getOrCreateCart db userId).2.cartItems ++ [_])
      rw [hgc]
      rw [hgc] at hfind
      exact pairUniq_append_new _ _ hu (find?_pair_none _ _ _ hfind)

/-- Any sequence of `add_item_to_cart` calls preserves the invariant. -/
theorem pairUniq_foldl (db : DB) (hu : PairUniq db.cartItems)
    (ops : List (Int × CartItemCreateReq)) :
    PairUniq ((ops.foldl (fun d op => (add_item_to_cart d op.1 op.2).2) db).cartItems) := by
  induction ops generalizing db with
  | nil => exact hu
  | cons op rest ih => exact ih _ (pairUniq_step _ _ _ hu)

/-- Claim C3 — adding a product already present in the caller's cart never
inserts a second row: under the handler's guards (positive product id,
quantity within (0, 1000], product found, active, enough stock for the
request alone), with the caller's cart found and an existing row for the
same (cart_id, product_id) pair, the call (1) keeps the
one-row-per-pair invariant, (2) is rejected with 400 when the combined
quantity would exceed the 1000-unit cap, (3) is rejected with 400 when
the combined quantity would exceed the product's stock, (4) otherwise
merges: the existing row's quantity is incremented in place and the table
is only rewritten by that per-id update — no append; and (5) any
sequence of add operations keeps the invariant. -/
theorem add_item_to_cart_merge_semantics
    (db : DB) (userId : Int) (item : CartItemCreateReq)
    (p : Product) (c : CartRec) (ci : CartItemRec)
    (hu : PairUniq db.cartItems)
    (hpid : 0 < item.product_id)
    (hq0 : 0 < item.quantity)
    (hq1 : item.quantity ≤ 1000)
    (hp : db.products.find? (fun x => x.id == item.product_id) = some p)
    (hact : p.is_active = true)
    (hstock : item.quantity ≤ p.stock)
    (hc : db.carts.find? (fun x => x.user_id == userId) = some c)
    (hci : db.cartItems.find? (fun x =>
        x.cart_id == c.id && x.product_id == item.product_id) = some ci) :
    PairUniq (add_item_to_cart db userId item).2.cartItems ∧
    (1000 < ci.quantity + item.quantity →
      add_item_to_cart db userId item =
        (.httpError 400 ("Quantidade total não pode exceder 1000 unidades. Atual: " ++
          toString ci.quantity ++ ", Solicitado: " ++ toString item.quantity), db)) ∧
    (ci.quantity + item.quantity ≤ 1000 → p.stock < ci.quantity + item.quantity →
      add_item_to_cart db userId item =
        (.httpError 400 ("Estoque insuficiente para " ++ p.name ++
          ". Disponível: " ++ toString p.stock ++
          ", Total solicitado: " ++ toString (ci.quantity + item.quantity)), db)) ∧
    (ci.quantity + item.quantity ≤ 1000 → ci.quantity + item.quantity ≤ p.stock →
      add_item_to_cart db userId item =
        (.ok { ci with quantity := ci.quantity + item.quantity },
         { db with cartItems := db.cartItems.map (fun x =>
             if x.id == ci.id then { x with quantity := ci.quantity + item.quantity } else x) })) ∧
    (∀ ops : List (Int × CartItemCreateReq),
      PairUniq ((ops.foldl (fun d op => (add_item_to_cart d op.1 op.2).2) db).cartItems)) := by
  have h1 : ¬item.product_id ≤ 0 := by omega
  have h2 : ¬item.quantity ≤ 0 := by omega
  have h3 : ¬1000 < item.quantity := by omega
  have h4 : ¬(p.is_active = false) := by simp [hact]
  have h5 : ¬(p.stock < item.quantity) := by omega
  refine ⟨pairUniq_step db userId item hu, ?_, ?_, ?_, pairUniq_foldl db hu⟩
  · intro hcap
    unfold add_item_to_cart
    rw [getOrCreateCart_of_found db userId c hc]
    simp only [if_neg h1, if_neg h2, if_neg h3, hp, if_neg h4, if_neg h5, hci, if_pos hcap]
  · intro hle hstk
    have h6 : ¬1000 < ci.quantity + item.quantity := by omega
    unfold add_item_to_cart
    rw [getOrCreateCart_of_found db userId c hc]
    simp only [if_neg h1, if_neg h2, if_neg h3, hp, if_neg h4, if_neg h5, hci,
      if_neg h6, if_pos hstk]
  · intro hle hstk
    have h6 : ¬1000 < ci.quantity + item.quantity := by omega
    have h7 : ¬p.stock < ci.quantity + item.quantity := by omega
    unfold add_item_to_cart
    rw [getOrCreateCart_of_found db userId c hc]
    simp only [if_neg h1, if_neg h2, if_neg h3, hp, if_neg h4, if_neg h5, hci,
      if_neg h6, if_neg h7]

/-- Concrete state for the C3 witness: product 1 (stock 10, active),
cart 1 owned by user 7, one cart item for product 1 with quantity 3. -/
def cartDB : DB :=
  { emptyDB with
      products := [{ id := 1, name := "Produto A", description := none, price := 10,
                     category_id := 1, image_url := none, stock := 10, is_active := true }],
      carts := [{ id := 1, user_id := 7 }],
      cartItems := [{ id := 1, cart_id := 1, product_id := 1, quantity := 3,
                      price_at_time := 10 }],
      nextCartId := 2, nextCartItemId := 2 }

/-- Witness for claim C3: adding quantity 4 of product 1, already in the
cart with quantity 3, yields a single merged row with quantity 7 and no
second row. -/
theorem add_item_to_cart_merge_semantics_witness :
    add_item_to_cart cartDB 7 { product_id := 1, quantity := 4 } =
      (.ok { id := 1, cart_id := 1, product_id := 1, quantity := 7, price_at_time := 10 },
       { cartDB with cartItems :=
           [{ id := 1, cart_id := 1, product_id := 1, quantity := 7, price_at_time := 10 }] }) := by
  have h := add_item_to_cart_merge_semantics cartDB 7 { product_id := 1, quantity := 4 }
    { id := 1, name := "Produto A", description := none, price := 10,
      category_id := 1, image_url := none, stock := 10, is_active := true }
    { id := 1, user_id := 7 }
    { id := 1, cart_id := 1, product_id := 1, quantity := 3, price_at_time := 10 }
    (by decide) (by decide) (by decide) (by decide) (by decide) (by decide)
    (by decide) (by decide) (by decide)
  rw [h.2.2.2.1 (by decide) (by decide)]
  decide

/-! ## C7 — `app/routers/categories.py` `update_category` and
`app/schemas/category.py` `CategoryUpdate` -/

/-- `CategoryUpdate` request payload (`app/schemas/category.py` lines
43-60): all three fields optional (the model has no is_active column and
the router never reads the field). -/
structure CategoryUpdateReq where
  name : Option String
  description : Option String
  is_active : Option Bool
deriving DecidableEq

/-- The characters the category-name validator rejects
(`app/schemas/category.py` line 69). -/
def forbiddenNameChars : List Char := ['<', '>', '\x7b', '\x7d', '|']

/-- Validation of a supplied name (`app/schemas/category.py` lines 45-50
and 62-71): `Field` length bounds 3-100 run first, then the validator
rejects blank and forbidden-character names and returns the stripped
value. -/
def validateCategoryName (v : String) : Except String String :=
  if v.length < 3 || 100 < v.length then
    .error "ValidationError: name length out of range"
  else if pyStrip v == "" then
    .error "ValidationError: Nome da categoria não pode estar vazio"
  else if v.toList.any (fun ch => forbiddenNameChars.contains ch) then
    .error "ValidationError: Nome da categoria contém caracteres inválidos"
  else
    .ok (pyStrip v)

/-- Validation of a supplied description (`app/schemas/category.py` lines
51-56 and 73-80): `Field` length bounds 10-500 run first, then the
validator rejects blank descriptions and returns the stripped value. -/
def validateCategoryDescription (v : String) : Except String String :=
  if v.length < 10 || 500 < v.length then
    .error "ValidationError: description length out of range"
  else if pyStrip v == "" then
    .error "ValidationError: Descrição não pode estar vazia"
  else
    .ok (pyStrip v)

/-- Full `CategoryUpdate` validation: each supplied field is validated
(`None` passes through — pydantic only runs the checks on present
values). -/
def validateCategoryUpdate (r : CategoryUpdateReq) : Except String CategoryUpdateReq :=
  match r.name with
  | some v =>
    match validateCategoryName v with
    | .error e => .error e
    | .ok n =>
      match r.description with
      | some w =>
        match validateCategoryDescription w with
        | .error e => .error e
        | .ok d => .ok { name := some n, description := some d, is_active := r.is_active }
      | none => .ok { name := some n, description := none, is_active := r.is_active }
  | none =>
    match r.description with
    | some w =>
      match validateCategoryDescription w with
      | .error e => .error e
      | .ok d => .ok { name := none, description := some d, is_active := r.is_active }
    | none => .ok { name := none, description := none, is_active := r.is_active }

/-- The row produced by a successful `update_category` call: name changed
only when supplied, truthy and different (`if category_data.name and
category_data.name != category.name`, line 147); description changed
exactly when supplied non-null (`if category_data.description is not
None`, line 161); nothing else — in particular a supplied is_active is
ignored (the model has no such column). -/
def categoryUpdateResult (cat : CategoryRec) (data : CategoryUpdateReq) : CategoryRec :=
  { cat with
      name :=
        match data.name with
        | some n => if n != "" && n != cat.name then n else cat.name
        | none => cat.name,
      description :=
        match data.description with
        | some d => some d
        | none => cat.description }

/-- Lines 160-166 of the handler: apply the description mutation when the
field was supplied (`is not None`), then commit — the committed table
rewrites the row carrying the fetched row's primary key. -/
def commitCategoryUpdate (db : DB) (cat : CategoryRec) (desc : Option String) :
    Outcome CategoryRec × DB :=
  match desc with
  | some d =>
    (.ok { cat with description := some d },
      { db with categories := db.categories.map (fun x =>
          if x.id == cat.id then { cat with description := some d } else x) })
  | none =>
    (.ok cat,
      { db with categories := db.categories.map (fun x =>
          if x.id == cat.id then cat else x) })

/-- `update_category` (`app/routers/categories.py` lines 115-167) applied
to an already-validated payload: 404 when the category is absent; when a
truthy, different name is supplied, 400 on a collision with an existing
category, otherwise the name mutation is applied first; then the
description mutation and the commit. -/
def update_category (db : DB) (categoryId : Int) (data : CategoryUpdateReq) :
    Outcome CategoryRec × DB :=
  match db.categories.find? (fun x => x.id == categoryId) with
  | none => (.httpError 404 "Categoria não encontrada", db)
  | some cat =>
    match data.name with
    | some n =>
      if n != "" && n != cat.name then
        if (db.categories.find? (fun x => x.name == n)).isSome then
          (.httpError 400 "Categoria com este nome já existe", db)
        else
          commitCategoryUpdate db { cat with name := n } data.description
      else
        commitCategoryUpdate db cat data.description
    | none =>
      commitCategoryUpdate db cat data.description

/-- The endpoint as a whole: FastAPI runs the schema validation before
the handler body and surfaces a failure as a 422 validation error. -/
def update_category_endpoint (db : DB) (categoryId : Int) (raw : CategoryUpdateReq) :
    Outcome CategoryRec × DB :=
  match validateCategoryUpdate raw with
  | .error e => (.httpError 422 e, db)
  | .ok data => update_category db categoryId data

/-- Concrete state for the C7 counterexample and witness: one category
with a non-empty stored description. -/
def categoriesDB : DB :=
  { emptyDB with
      categories := [{ id := 1, name := "Livros",
                       description := some "Categoria de livros em geral" }] }

/-- Counterexample to claim C7 as stated: a request that explicitly
supplies an empty description is not accepted — the `CategoryUpdate`
schema rejects it (min_length 10, and its validator rejects blank
strings) with a validation error (422), and the stored description is
left unchanged, not cleared. -/
theorem update_category_rejects_empty_description :
    update_category_endpoint categoriesDB 1
      { name := none, description := some "", is_active := none }
      = (.httpError 422 "ValidationError: description length out of range", categoriesDB) := by
  decide

/-- A description accepted by the validator is never the empty string. -/
theorem validateCategoryDescription_ok_ne_empty (w d : String)
    (h : validateCategoryDescription w = .ok d) : d ≠ "" := by
  unfold validateCategoryDescription at h
  split at h
  · exact absurd h (by simp)
  · split at h
    · exact absurd h (by simp)
    · rename_i h2
      injection h with h3
      subst h3
      simpa using h2

/-- A validated payload never carries an empty description. -/
theorem validateCategoryUpdate_desc_ne_empty (raw data : CategoryUpdateReq)
    (hval : validateCategoryUpdate raw = .ok data) :
    ∀ d, data.description = some d → d ≠ "" := by
  intro d hd
  unfold validateCategoryUpdate at hval
  rcases hrn : raw.name with _ | v <;> simp only [hrn] at hval
  · rcases hrd : raw.description with _ | w <;> simp only [hrd] at hval
    · injection hval with h
      subst h
      simp at hd
    · rcases hvd : validateCategoryDescription w with e | dd <;> simp only [hvd] at hval
      · exact Except.noConfusion hval
      · injection hval with h
        subst h
        simp at hd
        subst hd
        exact validateCategoryDescription_ok_ne_empty w dd hvd
  · rcases hvn : validateCategoryName v with e | n <;> simp only [hvn] at hval
    · exact Except.noConfusion hval
    · rcases hrd : raw.description with _ | w <;> simp only [hrd] at hval
      · injection hval with h
        subst h
        simp at hd
      · rcases hvd : validateCategoryDescription w with e | dd <;> simp only [hvd] at hval
        · exact Except.noConfusion hval
        · injection hval with h
          subst h
          simp at hd
          subst hd
          exact validateCategoryDescription_ok_ne_empty w dd hvd

/-- A request that explicitly supplies an empty description always fails
validation. -/
theorem validateCategoryUpdate_rejects_empty (r : CategoryUpdateReq)
    (h : r.description = some "") : ∃ e, validateCategoryUpdate r = .error e := by
  have hd : validateCategoryDescription "" =
      .error "ValidationError: description length out of range" := rfl
  unfold validateCategoryUpdate
  rcases hrn : r.name with _ | v
  · simp only [hrn, h, hd]
    exact ⟨_, rfl⟩
  · rcases hvn : validateCategoryName v with e | n
    · simp only [hrn, hvn]
      exact ⟨e, rfl⟩
    · simp only [hrn, hvn, h, hd]
      exact ⟨_, rfl⟩

/-- Claim C7 (amended) — for an existing category and a request that
passes the `CategoryUpdate` validation (names non-colliding when
changed), the update applies partial-update semantics: name changes only
when supplied, truthy and different; description changes exactly when
supplied non-null (necessarily to a non-empty validated string);
everything else, including the other rows and a supplied is_active, is
unchanged.  An explicitly supplied empty description is not accepted:
validation rejects it, so the description can never be cleared. -/
theorem update_category_partial_update
    (db : DB) (cid : Int) (raw data : CategoryUpdateReq) (cat : CategoryRec)
    (hval : validateCategoryUpdate raw = .ok data)
    (hfound : db.categories.find? (fun x => x.id == cid) = some cat)
    (hnocol : data.name.all (fun n => n == cat.name ||
        (db.categories.find? (fun x => x.name == n)).isNone) = true) :
    update_category db cid data =
      (.ok (categoryUpdateResult cat data),
       { db with categories := db.categories.map (fun x =>
           if x.id == cat.id then categoryUpdateResult cat data else x) }) ∧
    (∀ d, data.description = some d → d ≠ "") ∧
    (∀ r : CategoryUpdateReq, r.description = some "" →
        ∃ e, validateCategoryUpdate r = .error e) := by
  refine ⟨?_, validateCategoryUpdate_desc_ne_empty raw data hval,
    fun r hr => validateCategoryUpdate_rejects_empty r hr⟩
  unfold update_category
  simp only [hfound]
  rcases hn : data.name with _ | n
  · unfold commitCategoryUpdate categoryUpdateResult
    rcases hd : data.description with _ | d <;> simp [hn, hd]
  · simp only [hn]
    rw [hn] at hnocol
    simp only [Option.all_some, Bool.or_eq_true, beq_iff_eq,
      Option.isNone_iff_eq_none] at hnocol
    by_cases hb : (n != "" && n != cat.name) = true
    · have hne : ¬(n = cat.name) := by
        have hb' := hb
        simp only [bne_iff_ne, Bool.and_eq_true, ne_eq] at hb'
        exact hb'.2
      have hcol : db.categories.find? (fun x => x.name == n) = none := by
        rcases hnocol with h | h
        · exact absurd h hne
        · exact h
      rw [if_pos hb, hcol]
      unfold commitCategoryUpdate categoryUpdateResult
      rcases hd : data.description with _ | d <;> simp [hn, hd, hb]
    · rw [if_neg hb]
      unfold commitCategoryUpdate categoryUpdateResult
      rcases hd : data.description with _ | d <;> simp [hn, hd, hb]

/-- Witness for claim C7 (amended): updating category 1 with a new name
and a new (stripped) description changes exactly those two fields. -/
theorem update_category_partial_update_witness :
    update_category categoriesDB 1
      { name := some "Eletronicos", description := some "Nova descricao 123",
        is_active := none } =
      (.ok { id := 1, name := "Eletronicos", description := some "Nova descricao 123" },
       { categoriesDB with categories :=
           [{ id := 1, name := "Eletronicos", description := some "Nova descricao 123" }] }) := by
  have h := update_category_partial_update categoriesDB 1
    { name := some "Eletronicos", description := some " Nova descricao 123 ",
      is_active := none }
    { name := some "Eletronicos", description := some "Nova descricao 123",
      is_active := none }
    { id := 1, name := "Livros", description := some "Categoria de livros em geral" }
    (by rfl) (by decide) (by decide)
  rw [h.1]
  decide
